import Mathlib

/-!
Shallow embedding of `src/yt_spotify_auto_switch.py` (Ninjtheturtle/YT_Spotify_Swap).

The Python program polls the Windows media-session list, classifies whether a
browser session is playing and whether the Spotify session is playing, and
issues pause/play requests to Spotify.  Platform unreliability (raising API
calls, unreadable attributes) is embedded with `Option` / `Except` values
carried on the session model; every `try/except` of the source becomes a case
split on those values.
-/

/-! ### Configuration (source lines 25-36) -/

/-- Source line 25: keyword set used to recognise browser (video-source) sessions. -/
def BROWSER_AUMID_KEYWORDS : List String :=
  ["chrome", "msedge", "edge", "firefox", "brave", "opera", "vivaldi", "msedgewebview", "webview2"]

/-- Source line 30: token identifying Spotify sessions. -/
def SPOTIFY_AUMID_TOKEN : String := "spotify"

/-- Source line 33: polling interval, 0.5 s, expressed in milliseconds. -/
def POLL_INTERVAL_MS : Nat := 500

/-! ### PlaybackStatus enumeration (source lines 41-47) -/

namespace PlaybackStatus

def CLOSED : Nat := 0
def OPENED : Nat := 1
def CHANGING : Nat := 2
def STOPPED : Nat := 3
def PLAYING : Nat := 4
def PAUSED : Nat := 5

end PlaybackStatus

/-! ### Session model

A media session handle as the program can observe it.  `source_app_user_model_id`
is `none` when the attribute is absent or `None` (the source reads it with
`getattr(s, "source_app_user_model_id", "")` and normalises with `aumid or ""`).
`playbackInfo` is `none` when both acquisition paths of `get_playback_info`
(the method call and the `playback_info` attribute) fail; inside, a `none`
field models a raising attribute read.  The four `Bool` flags model whether
the corresponding platform call (`try_pause_async` / `try_play_async`, awaited
or plain) succeeds or raises. -/

structure PlaybackInfo where
  statusField : Option Nat
  typeField : Option Nat
deriving DecidableEq

structure Session where
  source_app_user_model_id : Option String
  playbackInfo : Option PlaybackInfo
  pauseAwaitOk : Bool
  pauseSyncOk : Bool
  playAwaitOk : Bool
  playSyncOk : Bool
deriving DecidableEq

/-! ### Case-insensitive substring matching (Python `k in (aumid or "").lower()`) -/

/-- `charsLead needle hay` : `needle` occurs at the start of `hay`. -/
def charsLead : List Char → List Char → Bool
  | [], _ => true
  | _ :: _, [] => false
  | a :: as, b :: bs => a == b && charsLead as bs

/-- `hasSubstr hay needle` : Python's `needle in hay` on character lists. -/
def hasSubstr : List Char → List Char → Bool
  | [], needle => needle.isEmpty
  | hay@(_ :: t), needle => charsLead needle hay || hasSubstr t needle

/-- Python `str.lower()` restricted to the ASCII identifiers this program compares. -/
def lowerString (s : String) : String := String.mk (s.data.map Char.toLower)

/-- Source lines 50-52: `is_browser_session`.  The argument is the raw
`source_app_user_model_id`; `(aumid or "").lower()` becomes
`lowerString (aumid.getD "")`. -/
def is_browser_session (aumid : Option String) : Bool :=
  let lid := lowerString (aumid.getD "")
  BROWSER_AUMID_KEYWORDS.any (fun k => hasSubstr lid.data k.data)

/-- Source lines 55-56: `is_spotify_session`. -/
def is_spotify_session (aumid : Option String) : Bool :=
  hasSubstr (lowerString (aumid.getD "")).data SPOTIFY_AUMID_TOKEN.data

/-! ### Classifier (source lines 59-141) -/

/-- Source lines 59-80: `get_playback_info`.  Returns
`(playback_status, playback_type)`; every failure path of the original
`try/except` chain yields `none` in the corresponding component. -/
def get_playback_info (s : Session) : Option Nat × Option Nat :=
  match s.playbackInfo with
  | none => (none, none)
  | some info => (info.statusField, info.typeField)

/-- Source lines 108-112: `list_sessions`.  The argument is the outcome of
`mgr.get_sessions()`; a raising call (`Except.error`) degrades to `[]`. -/
def list_sessions (r : Except Unit (List Session)) : List Session :=
  match r with
  | Except.ok l => l
  | Except.error _ => []

/-- Source lines 115-120: `pick_spotify_session` — first session whose
AUMID contains the Spotify token. -/
def pick_spotify_session : List Session → Option Session
  | [] => none
  | s :: rest =>
    if is_spotify_session s.source_app_user_model_id then some s
    else pick_spotify_session rest

/-- Source lines 123-132: `any_browser_video_playing` — true iff some browser
session has playback status `PLAYING`. -/
def any_browser_video_playing : List Session → Bool
  | [] => false
  | s :: rest =>
    if is_browser_session s.source_app_user_model_id then
      if (get_playback_info s).1 = some PlaybackStatus.PLAYING then true
      else any_browser_video_playing rest
    else any_browser_video_playing rest

/-- Source lines 135-141: `get_spotify_playing` — tri-state
(`none` = Unknown) playback state of the chosen Spotify session. -/
def get_spotify_playing (s : Option Session) : Option Bool :=
  match s with
  | none => none
  | some sess =>
    match (get_playback_info sess).1 with
    | none => none
    | some status => some (status == PlaybackStatus.PLAYING)

/-! ### Action executor (source lines 144-170) -/

/-- Outcome of the awaited `s.try_pause_async()` call, as an exception-explicit value. -/
def awaitPauseCall (sess : Session) : Except Unit Unit :=
  if sess.pauseAwaitOk then Except.ok () else Except.error ()

/-- Outcome of the fallback non-awaited `s.try_pause_async()` call. -/
def syncPauseCall (sess : Session) : Except Unit Unit :=
  if sess.pauseSyncOk then Except.ok () else Except.error ()

/-- Outcome of the awaited `s.try_play_async()` call. -/
def awaitPlayCall (sess : Session) : Except Unit Unit :=
  if sess.playAwaitOk then Except.ok () else Except.error ()

/-- Outcome of the fallback non-awaited `s.try_play_async()` call. -/
def syncPlayCall (sess : Session) : Except Unit Unit :=
  if sess.playSyncOk then Except.ok () else Except.error ()

/-- Source lines 144-157: `try_spotify_pause`.  `None` session returns `False`
immediately; otherwise the awaited call is tried, then the plain call, and
both exceptions are caught. -/
def try_spotify_pause (s : Option Session) : Bool :=
  match s with
  | none => false
  | some sess =>
    match awaitPauseCall sess with
    | Except.ok _ => true
    | Except.error _ =>
      match syncPauseCall sess with
      | Except.ok _ => true
      | Except.error _ => false

/-- Source lines 159-170: `try_spotify_play`, symmetric to `try_spotify_pause`. -/
def try_spotify_play (s : Option Session) : Bool :=
  match s with
  | none => false
  | some sess =>
    match awaitPlayCall sess with
    | Except.ok _ => true
    | Except.error _ =>
      match syncPlayCall sess with
      | Except.ok _ => true
      | Except.error _ => false

/-- Number of platform pause commands attempted by `try_spotify_pause`:
zero when the session is `None` (lines 145-146), otherwise one per `try`. -/
def pauseCommandsSent (s : Option Session) : Nat :=
  match s with
  | none => 0
  | some sess => if sess.pauseAwaitOk then 1 else 2

/-- Number of platform play commands attempted by `try_spotify_play`. -/
def playCommandsSent (s : Option Session) : Nat :=
  match s with
  | none => 0
  | some sess => if sess.playAwaitOk then 1 else 2

/-! ### Reconciliation cycle (source lines 173-216) -/

/-- State carried across cycles: `last_browser_playing` /
`last_spotify_playing` (source lines 176-177, 213-214); `none` is Python
`None`. -/
structure RecState where
  last_browser_playing : Option Bool
  last_spotify_playing : Option Bool
deriving DecidableEq

/-- The kind of request the loop body issues to Spotify. -/
inductive ReqKind where
  | pauseReq
  | playReq
deriving DecidableEq

/-- Decision structure of one loop body (source lines 188-211), with the calls
to `try_spotify_pause` / `try_spotify_play` factored out: first the
change-triggered block (lines 188-202: fires when `last_browser_playing is
None` or the browser state changed), then the reconcile block (lines 206-211:
fires only when `spotify_playing` is exactly `True` / `False`). -/
def policyRequests (last : Option Bool) (browser_playing : Bool)
    (spotify_playing : Option Bool) : List ReqKind :=
  (if last = none ∨ some browser_playing ≠ last then
    if browser_playing then
      if spotify_playing ≠ some false then [ReqKind.pauseReq] else []
    else
      if spotify_playing ≠ some true then [ReqKind.playReq] else []
  else [])
  ++
  (if browser_playing = true ∧ spotify_playing = some true then [ReqKind.pauseReq]
  else if browser_playing = false ∧ spotify_playing = some false then [ReqKind.playReq]
  else [])

/-- Executing one request against the chosen Spotify session: a pause request
runs `try_spotify_pause` (line 194 / 208), a play request runs
`try_spotify_play` (line 200 / 211). -/
def execRequest (spotify_session : Option Session) : ReqKind → Bool
  | ReqKind.pauseReq => try_spotify_pause spotify_session
  | ReqKind.playReq => try_spotify_play spotify_session

/-- One iteration of the `monitor_loop` body (source lines 182-214): classify
the snapshot, issue the decided requests, and atomically replace the carried
state.  Returns the new state and the requests issued, each with its result. -/
def cycle (st : RecState) (sessions : List Session) :
    RecState × List (ReqKind × Bool) :=
  let browser_playing := any_browser_video_playing sessions
  let spotify_session := pick_spotify_session sessions
  let spotify_playing := get_spotify_playing spotify_session
  let reqs := policyRequests st.last_browser_playing browser_playing spotify_playing
  (⟨some browser_playing, spotify_playing⟩,
    reqs.map (fun k => (k, execRequest spotify_session k)))

/-! ### Loop state machine (source lines 181-218)

Time is modelled in sub-interval ticks of 100 ms, so the 0.5 s
`asyncio.sleep(POLL_INTERVAL)` lasts `pollTicks = 5` ticks.  The stop event is
read only by the `while not stop_event.is_set()` test at the top of each
cycle; the sleep steps do not consult it, mirroring the plain
`await asyncio.sleep(POLL_INTERVAL)` of line 216. -/

def subTickMs : Nat := 100

def pollTicks : Nat := POLL_INTERVAL_MS / subTickMs

inductive LoopPhase where
  | atCheck
  | working
  | sleeping (remaining : Nat)
  | stopped
deriving DecidableEq

structure LoopST where
  phase : LoopPhase
  carried : RecState
deriving DecidableEq

/-- One tick of `monitor_loop`: `signal` is `stop_event.is_set()`, `sessions`
the snapshot the cycle body would observe.  The signal is consulted only in
the `atCheck` phase (line 181); `sleeping` ticks ignore it (line 216). -/
def monitorStep (signal : Bool) (sessions : List Session) : LoopST → LoopST
  | ⟨LoopPhase.atCheck, st⟩ =>
    if signal then ⟨LoopPhase.stopped, st⟩ else ⟨LoopPhase.working, st⟩
  | ⟨LoopPhase.working, st⟩ => ⟨LoopPhase.sleeping pollTicks, (cycle st sessions).1⟩
  | ⟨LoopPhase.sleeping (n + 1), st⟩ => ⟨LoopPhase.sleeping n, st⟩
  | ⟨LoopPhase.sleeping 0, st⟩ => ⟨LoopPhase.atCheck, st⟩
  | ⟨LoopPhase.stopped, st⟩ => ⟨LoopPhase.stopped, st⟩

/-! ### Concrete example sessions used by witnesses and counterexamples -/

/-- A Chrome browser session whose status reads `PLAYING`. -/
def sessBrowserPlaying : Session :=
  ⟨some "Chrome", some ⟨some PlaybackStatus.PLAYING, none⟩, true, true, true, true⟩

/-- A Spotify session whose status reads `PLAYING`. -/
def sessSpotifyPlaying : Session :=
  ⟨some "Spotify.exe", some ⟨some PlaybackStatus.PLAYING, none⟩, true, true, true, true⟩

/-- A Spotify session whose playback info is unreadable (both acquisition
paths of `get_playback_info` fail). -/
def sessSpotifyUnreadable : Session :=
  ⟨some "Spotify.exe", none, true, true, true, true⟩

/-- Loop state suspended at the start of the 0.5 s sleep, carrying an
arbitrary reconciliation state. -/
def midSleepState : LoopST := ⟨LoopPhase.sleeping pollTicks, ⟨none, none⟩⟩

/-! ### Helper lemmas -/

/-- Mapping a list to key-result pairs and projecting the keys is the
original list. -/
theorem map_fst_pair (g : ReqKind → Bool) (l : List ReqKind) :
    (l.map fun k => (k, g k)).map Prod.fst = l := by
  induction l with
  | nil => rfl
  | cons a t ih => simp [ih]

/-- The requests issued by one cycle are exactly the decision of
`policyRequests` on the classified snapshot. -/
theorem cycle_requests_eq (st : RecState) (sessions : List Session) :
    ((cycle st sessions).2).map Prod.fst
      = policyRequests st.last_browser_playing (any_browser_video_playing sessions)
          (get_spotify_playing (pick_spotify_session sessions)) := by
  simp only [cycle]
  exact map_fst_pair _ _

/-- The reconcile block guarantees a pause request whenever the browser is
playing and Spotify is known playing, for every previous state. -/
theorem pauseReq_mem_policy (last : Option Bool) :
    ReqKind.pauseReq ∈ policyRequests last true (some true) := by
  revert last; decide

/-- Once the sleep of `n` remaining ticks has begun, a continuously set stop
signal is observed only after the sleep drains and the top-of-loop check
runs: `n + 2` ticks. -/
theorem monitor_sleep_then_stop (sessions : List Session) (st : RecState) (n : Nat) :
    (monitorStep true sessions)^[n + 2] ⟨LoopPhase.sleeping n, st⟩
      = ⟨LoopPhase.stopped, st⟩ := by
  induction n with
  | zero => rfl
  | succ k ih =>
    have h1 : (monitorStep true sessions) ⟨LoopPhase.sleeping (k + 1), st⟩
        = ⟨LoopPhase.sleeping k, st⟩ := rfl
    calc (monitorStep true sessions)^[k + 1 + 2] ⟨LoopPhase.sleeping (k + 1), st⟩
        = (monitorStep true sessions)^[k + 2]
            ((monitorStep true sessions) ⟨LoopPhase.sleeping (k + 1), st⟩) := by
          rw [show k + 1 + 2 = (k + 2) + 1 by omega, Function.iterate_succ_apply]
      _ = (monitorStep true sessions)^[k + 2] ⟨LoopPhase.sleeping k, st⟩ := by rw [h1]
      _ = ⟨LoopPhase.stopped, st⟩ := ih

/-! ### Claims -/

/-- Claim C1, counterexample: with `last_browser_playing = some true`, a cycle
observing browser playing (unchanged) and Spotify state Unknown issues no
request at all, although the claim requires a pause request. -/
theorem claim_C1_counterexample :
    any_browser_video_playing [sessBrowserPlaying, sessSpotifyUnreadable] = true
    ∧ get_spotify_playing (pick_spotify_session [sessBrowserPlaying, sessSpotifyUnreadable]) = none
    ∧ (cycle ⟨some true, none⟩ [sessBrowserPlaying, sessSpotifyUnreadable]).2 = []
    ∧ policyRequests (some true) true none = [] := by decide

/-- Claim C1 (amended): when `player_active` is Unknown, the cycle issues the
action corresponding to `video_active` exactly when this is the first
observation or `video_active` changed since the previous cycle; when
`video_active` is unchanged, no action is issued. -/
theorem claim_C1_theorem (last : Option Bool) (bp : Bool) :
    policyRequests last bp none
      = if last = none ∨ some bp ≠ last then
          [if bp then ReqKind.pauseReq else ReqKind.playReq]
        else [] := by
  revert last bp; decide

/-- Claim C1 witness: at `last = some true`, `bp = false` (a change), the play
request is issued even though the Spotify state is Unknown. -/
theorem claim_C1_witness :
    policyRequests (some true) false none = [ReqKind.playReq] := by
  simpa using claim_C1_theorem (some true) false

/-- Claim C2, counterexample: the stop signal set at the start of the sleep is
not observed within one sub-interval tick, nor within the whole 0.5 s sleep;
the loop reaches `stopped` only after the full sleep plus the top-of-cycle
check. -/
theorem claim_C2_counterexample :
    ((monitorStep true [])^[1] midSleepState).phase ≠ LoopPhase.stopped
    ∧ ((monitorStep true [])^[pollTicks] midSleepState).phase ≠ LoopPhase.stopped
    ∧ ((monitorStep true [])^[pollTicks + 2] midSleepState).phase = LoopPhase.stopped := by
  decide

/-- Claim C2 (amended): the cancellation signal is checked only by the
top-of-cycle test; a sleep tick ignores it, so a signal set with `n` sleep
ticks remaining is acted on only after those `n` ticks drain plus the
transition to the check, i.e. after `n + 2` ticks — up to a full poll
interval, not within one sub-interval tick. -/
theorem claim_C2_theorem (n : Nat) (st : RecState) (sessions : List Session) :
    monitorStep true sessions ⟨LoopPhase.atCheck, st⟩ = ⟨LoopPhase.stopped, st⟩
    ∧ monitorStep true sessions ⟨LoopPhase.sleeping (n + 1), st⟩ = ⟨LoopPhase.sleeping n, st⟩
    ∧ (monitorStep true sessions)^[n + 2] ⟨LoopPhase.sleeping n, st⟩
        = ⟨LoopPhase.stopped, st⟩ :=
  ⟨rfl, rfl, monitor_sleep_then_stop sessions st n⟩

/-- Claim C2 witness: the amended claim evaluated at 4 remaining sleep ticks
with an empty snapshot. -/
theorem claim_C2_witness :
    monitorStep true [] ⟨LoopPhase.atCheck, ⟨none, none⟩⟩ = ⟨LoopPhase.stopped, ⟨none, none⟩⟩
    ∧ monitorStep true [] ⟨LoopPhase.sleeping 5, ⟨none, none⟩⟩
        = ⟨LoopPhase.sleeping 4, ⟨none, none⟩⟩
    ∧ (monitorStep true [])^[6] ⟨LoopPhase.sleeping 4, ⟨none, none⟩⟩
        = ⟨LoopPhase.stopped, ⟨none, none⟩⟩ :=
  claim_C2_theorem 4 ⟨none, none⟩ []

/-- Claim C3: whenever the browser is playing and Spotify is observed playing,
the cycle issues a pause request, for every previous state — including one
whose `last_browser_playing` already equals the current value, so enforcement
is level-triggered, not edge-triggered. -/
theorem claim_C3_theorem :
    (∀ last : Option Bool, ReqKind.pauseReq ∈ policyRequests last true (some true))
    ∧ (∀ (st : RecState) (sessions : List Session),
        any_browser_video_playing sessions = true →
        get_spotify_playing (pick_spotify_session sessions) = some true →
        ReqKind.pauseReq ∈ ((cycle st sessions).2).map Prod.fst) := by
  refine ⟨pauseReq_mem_policy, ?_⟩
  intro st sessions h1 h2
  rw [cycle_requests_eq, h1, h2]
  exact pauseReq_mem_policy st.last_browser_playing

/-- Claim C3 witness: previous state already has `last_browser_playing = some
true`; the unchanged-browser cycle with Spotify playing still issues a pause
request. -/
theorem claim_C3_witness :
    any_browser_video_playing [sessBrowserPlaying, sessSpotifyPlaying] = true
    ∧ get_spotify_playing (pick_spotify_session [sessBrowserPlaying, sessSpotifyPlaying])
        = some true
    ∧ ReqKind.pauseReq ∈
        ((cycle ⟨some true, some true⟩ [sessBrowserPlaying, sessSpotifyPlaying]).2).map Prod.fst :=
  ⟨by decide, by decide,
    claim_C3_theorem.2 ⟨some true, some true⟩ [sessBrowserPlaying, sessSpotifyPlaying]
      (by decide) (by decide)⟩

/-- Claim C4: from the initial state (both carried fields `None`), a cycle on
the empty snapshot classifies no video, no player session, Unknown player
state, and issues exactly one play request. -/
theorem claim_C4_theorem :
    any_browser_video_playing ([] : List Session) = false
    ∧ pick_spotify_session ([] : List Session) = none
    ∧ get_spotify_playing (pick_spotify_session ([] : List Session)) = none
    ∧ ((cycle ⟨none, none⟩ ([] : List Session)).2).map Prod.fst = [ReqKind.playReq] := by
  decide

/-- Claim C5: with a `None` player session, `try_spotify_play` and
`try_spotify_pause` return `false` immediately and send no platform command;
in particular the Scenario-4 play request (empty snapshot) reaches no
platform. -/
theorem claim_C5_theorem :
    try_spotify_play none = false
    ∧ try_spotify_pause none = false
    ∧ playCommandsSent none = 0
    ∧ pauseCommandsSent none = 0
    ∧ (cycle ⟨none, none⟩ ([] : List Session)).2 = [(ReqKind.playReq, false)]
    ∧ playCommandsSent (pick_spotify_session ([] : List Session)) = 0 := by
  decide

/-- Claim C6: `video_active` is true iff some session with a case-insensitive
browser-keyword match in its identity has playback status `PLAYING`; the
identities "Chrome", "CHROME.EXE" and "chrome" all classify as video-source
matches. -/
theorem claim_C6_theorem :
    (∀ sessions : List Session,
      any_browser_video_playing sessions = true
        ↔ ∃ s ∈ sessions, is_browser_session s.source_app_user_model_id = true
            ∧ (get_playback_info s).1 = some PlaybackStatus.PLAYING)
    ∧ is_browser_session (some "Chrome") = true
    ∧ is_browser_session (some "CHROME.EXE") = true
    ∧ is_browser_session (some "chrome") = true := by
  refine ⟨?_, by decide, by decide, by decide⟩
  intro sessions
  induction sessions with
  | nil => simp [any_browser_video_playing]
  | cons s rest ih =>
    by_cases hb : is_browser_session s.source_app_user_model_id = true
    · by_cases hp : (get_playback_info s).1 = some PlaybackStatus.PLAYING
      · simp [any_browser_video_playing, hb, hp]
      · simp [any_browser_video_playing, hb, hp, ih]
    · simp [any_browser_video_playing, hb, ih]

/-- Claim C6 witness: the equivalence evaluated at a one-session snapshot
holding a playing Chrome session. -/
theorem claim_C6_witness :
    any_browser_video_playing [sessBrowserPlaying] = true :=
  (claim_C6_theorem.1 [sessBrowserPlaying]).mpr
    ⟨sessBrowserPlaying, by decide, by decide, by decide⟩

/-- Claim C7: the player session is the first snapshot entry whose identity
contains the Spotify token case-insensitively (`none` if absent), and the
player state is Unknown iff that session is absent or its status is
unreadable, otherwise `status == PLAYING`. -/
theorem claim_C7_theorem :
    (∀ sessions : List Session,
      pick_spotify_session sessions
        = sessions.find? (fun s => is_spotify_session s.source_app_user_model_id))
    ∧ (∀ sessions : List Session,
        get_spotify_playing (pick_spotify_session sessions) = none
          ↔ pick_spotify_session sessions = none
            ∨ ∃ s, pick_spotify_session sessions = some s ∧ (get_playback_info s).1 = none)
    ∧ (∀ (sessions : List Session) (s : Session) (status : Nat),
        pick_spotify_session sessions = some s →
        (get_playback_info s).1 = some status →
        get_spotify_playing (pick_spotify_session sessions)
          = some (status == PlaybackStatus.PLAYING)) := by
  refine ⟨?_, ?_, ?_⟩
  · intro sessions
    induction sessions with
    | nil => rfl
    | cons s rest ih =>
      by_cases hs : is_spotify_session s.source_app_user_model_id = true
      · simp [pick_spotify_session, hs, List.find?]
      · simp [pick_spotify_session, hs, List.find?, ih]
  · intro sessions
    cases hp : pick_spotify_session sessions with
    | none => simp [get_spotify_playing]
    | some s =>
      cases hi : (get_playback_info s).1 with
      | none => simp [get_spotify_playing, hi]
      | some v => simp [get_spotify_playing, hi]
  · intro sessions s status hp hi
    rw [hp]
    simp [get_spotify_playing, hi]

/-- Claim C7 witness: a snapshot whose only entry is a playing Spotify session
is picked and classified as playing. -/
theorem claim_C7_witness :
    get_spotify_playing (pick_spotify_session [sessSpotifyPlaying]) = some true :=
  claim_C7_theorem.2.2 [sessSpotifyPlaying] sessSpotifyPlaying 4 (by decide) (by decide)

/-- Claim C8: the pause/play executors return a boolean for every platform
behaviour — `false` exactly when both the awaited and the fallback call raise,
with both exceptions caught — and a cycle whose every request failed still
transitions into the sleep, not out of the loop. -/
theorem claim_C8_theorem :
    (∀ sess : Session,
      try_spotify_pause (some sess) = (sess.pauseAwaitOk || sess.pauseSyncOk))
    ∧ (∀ sess : Session,
        try_spotify_play (some sess) = (sess.playAwaitOk || sess.playSyncOk))
    ∧ try_spotify_pause none = false
    ∧ try_spotify_play none = false
    ∧ (∀ (st : RecState) (sessions : List Session),
        (∀ r ∈ (cycle st sessions).2, r.2 = false) →
        (monitorStep false sessions ⟨LoopPhase.working, st⟩).phase
          = LoopPhase.sleeping pollTicks) := by
  refine ⟨?_, ?_, rfl, rfl, ?_⟩
  · intro sess
    cases h1 : sess.pauseAwaitOk <;> cases h2 : sess.pauseSyncOk <;>
      simp [try_spotify_pause, awaitPauseCall, syncPauseCall, h1, h2]
  · intro sess
    cases h1 : sess.playAwaitOk <;> cases h2 : sess.playSyncOk <;>
      simp [try_spotify_play, awaitPlayCall, syncPlayCall, h1, h2]
  · intro st sessions _
    rfl

/-- Claim C8 witness: the empty-snapshot cycle issues one failing play request
and the loop still proceeds into its sleep. -/
theorem claim_C8_witness :
    (∀ r ∈ (cycle ⟨none, none⟩ ([] : List Session)).2, r.2 = false)
    ∧ (monitorStep false [] ⟨LoopPhase.working, ⟨none, none⟩⟩).phase
        = LoopPhase.sleeping pollTicks :=
  ⟨by decide, claim_C8_theorem.2.2.2.2 ⟨none, none⟩ [] (by decide)⟩

/-- Claim C9: a failing snapshot enumeration degrades to the empty session
list — no video considered active, no player found — and the loop proceeds
into its sleep rather than terminating. -/
theorem claim_C9_theorem (st : RecState) :
    list_sessions (Except.error ()) = ([] : List Session)
    ∧ any_browser_video_playing (list_sessions (Except.error ())) = false
    ∧ pick_spotify_session (list_sessions (Except.error ())) = none
    ∧ (monitorStep false (list_sessions (Except.error ())) ⟨LoopPhase.working, st⟩).phase
        = LoopPhase.sleeping pollTicks :=
  ⟨rfl, rfl, rfl, rfl⟩

/-- Claim C9 witness: the claim evaluated at the initial carried state. -/
theorem claim_C9_witness :
    list_sessions (Except.error ()) = ([] : List Session)
    ∧ any_browser_video_playing (list_sessions (Except.error ())) = false
    ∧ pick_spotify_session (list_sessions (Except.error ())) = none
    ∧ (monitorStep false (list_sessions (Except.error ())) ⟨LoopPhase.working, ⟨none, none⟩⟩).phase
        = LoopPhase.sleeping pollTicks :=
  claim_C9_theorem ⟨none, none⟩

/-- Claim C10: a session with unreadable playback status contributes nothing
to the video classification — the remaining sessions classify exactly as if
it were absent — and, when picked as the player, degrades only to Unknown. -/
theorem claim_C10_theorem (pre post : List Session) (bad : Session)
    (h : (get_playback_info bad).1 = none) :
    any_browser_video_playing (pre ++ bad :: post) = any_browser_video_playing (pre ++ post)
    ∧ get_spotify_playing (some bad) = none := by
  constructor
  · induction pre with
    | nil =>
      simp only [List.nil_append]
      by_cases hb : is_browser_session bad.source_app_user_model_id = true
      · simp [any_browser_video_playing, hb, h]
      · simp [any_browser_video_playing, hb]
    | cons s pre ih =>
      simp only [List.cons_append, any_browser_video_playing, List.append_eq]
      rw [ih]
  · simp [get_spotify_playing, h]

/-- Claim C10 witness: an unreadable Spotify session next to a playing Chrome
session leaves the video classification unchanged and classifies itself as
Unknown. -/
theorem claim_C10_witness :
    (get_playback_info sessSpotifyUnreadable).1 = none
    ∧ (any_browser_video_playing ([sessBrowserPlaying] ++ sessSpotifyUnreadable :: [])
          = any_browser_video_playing ([sessBrowserPlaying] ++ [])
      ∧ get_spotify_playing (some sessSpotifyUnreadable) = none) :=
  ⟨by decide, claim_C10_theorem [sessBrowserPlaying] [] sessSpotifyUnreadable (by decide)⟩
